import Mathlib

/-!
Verification of the BERT pretraining driver script
(examples/nlp/bert_pretraining.py).

The script's own logic is argument parsing, run naming, vocabulary-size
rounding, pipeline wiring with tied embedding weights, steps-per-epoch
computation, learning-rate-policy selection, an idempotent config-file
save, and the construction of the optimization-parameter record handed
to the external trainer.  Each of these is embedded below as an
executable Lean definition, translated line by line from the source.

Conventions of the embedding:
* Command-line integers become `Nat`.  Command-line floats are carried
  as their decimal strings: the script never does arithmetic on them,
  it only passes them through or interpolates them into strings, and
  Python's float-to-string conversion round-trips the shortest decimal
  form, which for the inputs in question is the command-line literal
  itself.
* Python's true division followed by `int` truncation (line 190) and
  `math.ceil` over a division (line 97) are modelled as exact rational
  operations, i.e. `Nat` floor/ceiling division.
* The filesystem touched by the save step is modelled as a record of
  the checkpoint directory's existence and the optional contents of
  its bert-config.json file.
* PyTorch parameter tensors are modelled by storage identifiers: two
  tensors alias exactly when their storage identifiers coincide.
-/

/-- A run configuration, mirroring the argparse flags of lines 22-59.
Floats are carried as their command-line decimal strings (see module
doc).  `local_rank` and `tensorboard_filename` default to `none`
(Python `None`). -/
structure RunConfig where
  local_rank : Option Int := none
  lr : String := "0.01"
  beta2 : String := "0.25"
  optName : String := "novograd"
  lr_decay_policy : String := "cosine"
  lr_warmup_proportion : String := "0.05"
  weight_decay : String := "0.0"
  batch_size : Nat := 64
  eval_batch_size : Nat := 16
  max_sequence_length : Nat := 128
  mask_probability : String := "0.15"
  d_model : Nat := 768
  d_inner : Nat := 3072
  num_layers : Nat := 12
  num_heads : Nat := 12
  num_gpus : Nat := 1
  num_epochs : Nat := 10
  embedding_dropout : String := "0.1"
  ffn_dropout : String := "0.1"
  attn_score_dropout : String := "0.1"
  attn_layer_dropout : String := "0.1"
  conv_kernel_size : Nat := 7
  conv_weight_dropout : String := "0.1"
  conv_layer_dropout : String := "0.1"
  tokenizer_model : String := "tokenizer.model"
  dataset_dir : String := "./pubmed-corpus"
  dev_dataset_dir : String := "./pubmed-corpus-test"
  train_sentence_indices_filename : String := "train_sentence_indices.pkl"
  dev_sentence_indices_filename : String := "dev_sentence_indices.pkl"
  checkpoint_directory : String := "./checkpoint"
  checkpoint_save_frequency : Nat := 25000
  tensorboard_filename : Option String := none
  fp16 : Nat := 0
  batch_per_step : Nat := 1
  deriving DecidableEq, Repr

/-- The default configuration: every flag at its argparse default. -/
def defaultConfig : RunConfig := {}

/-- Lines 62-64: the derived run name,
`"BERT-H{0}-D{1}-lr{2}-opt{3}-warmup{4}-bs{5}-e{6}-b2{7}".format(...)`
with the eight fields interpolated in order. -/
def derivedName (cfg : RunConfig) : String :=
  "BERT-H" ++ toString cfg.num_heads ++
  "-D" ++ toString cfg.d_model ++
  "-lr" ++ cfg.lr ++
  "-opt" ++ cfg.optName ++
  "-warmup" ++ cfg.lr_decay_policy ++
  "-bs" ++ toString cfg.batch_size ++
  "-e" ++ toString cfg.num_epochs ++
  "-b2" ++ cfg.beta2

/-- Lines 62-67: the run name is the derived name, overridden by
`tensorboard_filename` when that flag was supplied. -/
def runName (cfg : RunConfig) : String :=
  match cfg.tensorboard_filename with
  | some n => n
  | none => derivedName cfg

/-- Line 97: `vocab_size = 8 * math.ceil(tokenizer.vocab_size / 8)`,
with the exact ceiling division written as `(v + 7) / 8` over `Nat`. -/
def vocabSize (rawVocab : Nat) : Nat :=
  8 * ((rawVocab + 7) / 8)

/-- Lines 69-74: the try/import of tensorboardX.  The importability of
the optional library is an environment fact, passed as a Bool.  The
result is the optional writer (identified by the run name it was opened
with) together with the list of lines printed to stdout. -/
def tbSetup (importable : Bool) (name : String) : Option String × List String :=
  if importable then (some name, [])
  else (none, ["Tensorboard is not available"])

/-- Line 190: `int(train_data_size / (batch_size * num_gpus *
batch_per_step))`, the true division and `int` truncation modelled as
exact `Nat` floor division (see module doc). -/
def stepsPerEpoch (train_data_size : Nat) (cfg : RunConfig) : Nat :=
  train_data_size / (cfg.batch_size * cfg.num_gpus * cfg.batch_per_step)

/-- The three annealing classes imported on lines 9-10. -/
inductive AnnealingKind where
  | squareAnnealing
  | cosineAnnealing
  | inverseSquareRootAnnealing
  deriving DecidableEq, Repr

/-- A constructed learning-rate policy: which annealing class was
instantiated, with what total step count and warmup argument. -/
structure LrPolicy where
  kind : AnnealingKind
  totalSteps : Nat
  warmupFrac : String
  deriving DecidableEq, Repr

/-- Lines 202-213: the if/elif chain over `args.lr_decay_policy`.
`"poly"` gives SquareAnnealing, `"cosine"` gives CosineAnnealing,
`"noam"` gives InverseSquareRootAnnealing, each with
`num_epochs * steps_per_epoch` total steps and the configured warmup
proportion; any other name raises NotImplementedError, modelled as
`Except.error`. -/
def selectLrPolicy (cfg : RunConfig) (steps : Nat) : Except Unit LrPolicy :=
  if cfg.lr_decay_policy = "poly" then
    Except.ok ⟨AnnealingKind.squareAnnealing, cfg.num_epochs * steps,
               cfg.lr_warmup_proportion⟩
  else if cfg.lr_decay_policy = "cosine" then
    Except.ok ⟨AnnealingKind.cosineAnnealing, cfg.num_epochs * steps,
               cfg.lr_warmup_proportion⟩
  else if cfg.lr_decay_policy = "noam" then
    Except.ok ⟨AnnealingKind.inverseSquareRootAnnealing, cfg.num_epochs * steps,
               cfg.lr_warmup_proportion⟩
  else
    Except.error ()

/-- The filesystem state the save step touches: whether the checkpoint
directory exists, and the contents of bert-config.json inside it when
that file exists. -/
structure FsState where
  dirExists : Bool
  bertConfigFile : Option String
  deriving DecidableEq, Repr

/-- Lines 216-221: create the checkpoint directory when absent, then
write bert-config.json only when no file of that name exists yet.
`json` is the serialized model config that line 221 would write. -/
def saveConfigStep (json : String) (fs : FsState) : FsState :=
  let fs1 : FsState :=
    if fs.dirExists then fs else { fs with dirExists := true }
  match fs1.bertConfigFile with
  | some _ => fs1
  | none => { fs1 with bertConfigFile := some json }

/-- Lines 202-221 in program order: learning-rate-policy selection runs
first; the uncaught NotImplementedError of line 213 aborts the script,
so the save step never runs in that case.  The error branch carries the
filesystem state at the moment of the abort. -/
def scheduleThenSave (cfg : RunConfig) (steps : Nat) (json : String)
    (fs : FsState) : Except FsState (LrPolicy × FsState) :=
  match selectLrPolicy cfg steps with
  | Except.error _ => Except.error fs
  | Except.ok p => Except.ok (p, saveConfigStep json fs)

/-- The optimization-parameter record of lines 230-237, handed to
`optimizer.train`. -/
structure OptimizationParams where
  batch_size : Nat
  num_epochs : Nat
  lr : String
  weight_decay : String
  betas : String × String
  grad_norm_clip : Option String
  deriving DecidableEq, Repr

/-- Lines 230-237: the literal dict passed as `optimization_params`,
with `betas = (0.95, args.beta2)` and `grad_norm_clip = None`. -/
def optimizationParams (cfg : RunConfig) : OptimizationParams :=
  { batch_size := cfg.batch_size
    num_epochs := cfg.num_epochs
    lr := cfg.lr
    weight_decay := cfg.weight_decay
    betas := ("0.95", cfg.beta2)
    grad_norm_clip := none }

/-- A parameter tensor, identified by the storage it points at: two
tensors alias exactly when their `storage` fields coincide. -/
structure TensorRef where
  storage : Nat
  deriving DecidableEq, Repr

/-- The encoder module (line 99): its word-embedding weight tensor and
its module identity. -/
structure BertModule where
  moduleId : Nat
  wordEmbeddingsWeight : TensorRef
  deriving DecidableEq, Repr

/-- The MLM log-softmax head (line 111): its dense projection weight
tensor and its module identity. -/
structure MlmHeadModule where
  moduleId : Nat
  denseWeight : TensorRef
  deriving DecidableEq, Repr

/-- One data-flow branch (train: lines 152-160, eval: lines 166-174),
recorded by the identities of the module instances it calls. -/
structure Branch where
  encoderOf : Nat
  mlmHeadOf : Nat
  deriving DecidableEq, Repr

/-- The assembled two-branch pipeline graph. -/
structure Pipeline where
  bert_model : BertModule
  mlm_log_softmax : MlmHeadModule
  trainBranch : Branch
  evalBranch : Branch
  deriving DecidableEq, Repr

/-- Lines 99-174 of the assembly, restricted to the parts the tied
weights live in.  The framework allocates a fresh storage for each
module's weight tensor (storages 0 and 1); the assignment of lines
128-129 then repoints the MLM head's dense weight at the encoder's
embedding-weight tensor; lines 152-174 route both branches through the
same `bert_model` and `mlm_log_softmax` instances. -/
def assemblePipeline : Pipeline :=
  let bert_model : BertModule :=
    { moduleId := 0, wordEmbeddingsWeight := { storage := 0 } }
  let freshHead : MlmHeadModule :=
    { moduleId := 1, denseWeight := { storage := 1 } }
  let mlm_log_softmax : MlmHeadModule :=
    { freshHead with denseWeight := bert_model.wordEmbeddingsWeight }
  { bert_model := bert_model
    mlm_log_softmax := mlm_log_softmax
    trainBranch :=
      { encoderOf := bert_model.moduleId, mlmHeadOf := mlm_log_softmax.moduleId }
    evalBranch :=
      { encoderOf := bert_model.moduleId, mlmHeadOf := mlm_log_softmax.moduleId } }

/-- C1: the computed vocab size is the smallest multiple of 8 that is
at least the raw tokenizer vocabulary size, and raw size 30522 yields
30528. -/
theorem vocabSize_least_multiple_of_eight :
    (∀ v : Nat, 8 ∣ vocabSize v ∧ v ≤ vocabSize v ∧
      ∀ m : Nat, 8 ∣ m → v ≤ m → vocabSize v ≤ m) ∧
    vocabSize 30522 = 30528 := by
  refine ⟨fun v => ⟨⟨(v + 7) / 8, rfl⟩, ?_, ?_⟩, by decide⟩
  · have h := Nat.div_add_mod (v + 7) 8
    have hr := Nat.mod_lt (v + 7) (show 0 < 8 by decide)
    unfold vocabSize
    omega
  · rintro m ⟨k, rfl⟩ hvm
    have h := Nat.div_add_mod (v + 7) 8
    have hr := Nat.mod_lt (v + 7) (show 0 < 8 by decide)
    unfold vocabSize
    omega

/-- Witness for C1 at v = 30522 and m = 30528. -/
theorem vocabSize_least_multiple_of_eight_witness :
    8 ∣ vocabSize 30522 ∧ 30522 ≤ vocabSize 30522 ∧ vocabSize 30522 ≤ 30528 :=
  ⟨(vocabSize_least_multiple_of_eight.1 30522).1,
   (vocabSize_least_multiple_of_eight.1 30522).2.1,
   (vocabSize_least_multiple_of_eight.1 30522).2.2 30528 (by decide) (by decide)⟩

/-- C2: the derived run name interpolates the eight configuration
fields in the fixed format, and at the example configuration (which is
exactly the argparse defaults) it equals the expected literal. -/
theorem derivedName_format :
    (∀ cfg : RunConfig, derivedName cfg =
      "BERT-H" ++ toString cfg.num_heads ++ "-D" ++ toString cfg.d_model ++
      "-lr" ++ cfg.lr ++ "-opt" ++ cfg.optName ++
      "-warmup" ++ cfg.lr_decay_policy ++ "-bs" ++ toString cfg.batch_size ++
      "-e" ++ toString cfg.num_epochs ++ "-b2" ++ cfg.beta2) ∧
    derivedName defaultConfig =
      "BERT-H12-D768-lr0.01-optnovograd-warmupcosine-bs64-e10-b20.25" :=
  ⟨fun _ => rfl, by decide⟩

/-- C3: steps-per-epoch is the exact floor of the train dataset size by
batch_size * num_gpus * batch_per_step (characterized without division:
it is the unique q with q*d ≤ t < (q+1)*d), and any policy the selector
constructs from it has total step count num_epochs * steps_per_epoch
and the configured warmup proportion. -/
theorem stepsPerEpoch_floor_and_policy_totals
    (cfg : RunConfig) (t : Nat)
    (hb : 0 < cfg.batch_size) (hg : 0 < cfg.num_gpus)
    (hs : 0 < cfg.batch_per_step) :
    stepsPerEpoch t cfg *
        (cfg.batch_size * cfg.num_gpus * cfg.batch_per_step) ≤ t ∧
    t < (stepsPerEpoch t cfg + 1) *
        (cfg.batch_size * cfg.num_gpus * cfg.batch_per_step) ∧
    ∀ p : LrPolicy, selectLrPolicy cfg (stepsPerEpoch t cfg) = Except.ok p →
      p.totalSteps = cfg.num_epochs * stepsPerEpoch t cfg ∧
      p.warmupFrac = cfg.lr_warmup_proportion := by
  set d := cfg.batch_size * cfg.num_gpus * cfg.batch_per_step with hd
  have hdpos : 0 < d := by positivity
  refine ⟨Nat.div_mul_le_self t d, ?_, ?_⟩
  · calc t = d * (t / d) + t % d := (Nat.div_add_mod t d).symm
      _ < d * (t / d) + d := by
          have := Nat.mod_lt t hdpos
          omega
      _ = (t / d + 1) * d := by ring
  · intro p hp
    unfold selectLrPolicy at hp
    split_ifs at hp <;> cases hp <;> exact ⟨rfl, rfl⟩

/-- Witness for C3 at the default configuration (d = 64) with a train
dataset of 1000 samples, so steps_per_epoch = 15 and the cosine policy
gets 10 * 15 = 150 total steps. -/
theorem stepsPerEpoch_floor_and_policy_totals_witness :
    stepsPerEpoch 1000 defaultConfig *
        (defaultConfig.batch_size * defaultConfig.num_gpus *
          defaultConfig.batch_per_step) ≤ 1000 ∧
    (⟨AnnealingKind.cosineAnnealing, 150, "0.05"⟩ : LrPolicy).totalSteps =
      defaultConfig.num_epochs * stepsPerEpoch 1000 defaultConfig :=
  ⟨(stepsPerEpoch_floor_and_policy_totals defaultConfig 1000
      (by decide) (by decide) (by decide)).1,
   ((stepsPerEpoch_floor_and_policy_totals defaultConfig 1000
      (by decide) (by decide) (by decide)).2.2
      ⟨AnnealingKind.cosineAnnealing, 150, "0.05"⟩ rfl).1⟩

/-- C4: any policy name outside the three supported ones makes the
selector fail (no default is substituted), while poly, cosine and noam
map to square, cosine and inverse-square-root annealing respectively. -/
theorem selectLrPolicy_spec (cfg : RunConfig) (steps : Nat) :
    (cfg.lr_decay_policy ∉ (["poly", "cosine", "noam"] : List String) →
      selectLrPolicy cfg steps = Except.error ()) ∧
    (cfg.lr_decay_policy = "poly" →
      selectLrPolicy cfg steps = Except.ok
        ⟨AnnealingKind.squareAnnealing, cfg.num_epochs * steps,
         cfg.lr_warmup_proportion⟩) ∧
    (cfg.lr_decay_policy = "cosine" →
      selectLrPolicy cfg steps = Except.ok
        ⟨AnnealingKind.cosineAnnealing, cfg.num_epochs * steps,
         cfg.lr_warmup_proportion⟩) ∧
    (cfg.lr_decay_policy = "noam" →
      selectLrPolicy cfg steps = Except.ok
        ⟨AnnealingKind.inverseSquareRootAnnealing, cfg.num_epochs * steps,
         cfg.lr_warmup_proportion⟩) := by
  refine ⟨fun h => ?_, fun h => ?_, fun h => ?_, fun h => ?_⟩
  · simp only [List.mem_cons, List.not_mem_nil, or_false, not_or] at h
    obtain ⟨h1, h2, h3⟩ := h
    simp [selectLrPolicy, h1, h2, h3]
  · simp [selectLrPolicy, h]
  · simp [selectLrPolicy, h]
  · simp [selectLrPolicy, h]

/-- Witness for C4: the unsupported name "linear" fails, and the
default name "cosine" yields cosine annealing. -/
theorem selectLrPolicy_spec_witness :
    selectLrPolicy { defaultConfig with lr_decay_policy := "linear" } 100 =
      Except.error () ∧
    selectLrPolicy defaultConfig 100 = Except.ok
      ⟨AnnealingKind.cosineAnnealing, 1000, "0.05"⟩ :=
  ⟨(selectLrPolicy_spec { defaultConfig with lr_decay_policy := "linear" } 100).1
      (by decide),
   (selectLrPolicy_spec defaultConfig 100).2.2.1 rfl⟩

/-- C5: the config-file save step is idempotent and non-clobbering:
afterwards the checkpoint directory exists, the config file holds its
previous contents when it already existed and the freshly written json
only otherwise, and running the step twice equals running it once. -/
theorem saveConfigStep_idempotent_nonclobbering :
    ∀ (json : String) (fs : FsState),
      (saveConfigStep json fs).dirExists = true ∧
      (saveConfigStep json fs).bertConfigFile =
        some (fs.bertConfigFile.getD json) ∧
      saveConfigStep json (saveConfigStep json fs) = saveConfigStep json fs := by
  intro json fs
  obtain ⟨d, c⟩ := fs
  cases d <;> cases c <;> simp [saveConfigStep]

/-- C6: schedule selection runs strictly before the save step, so an
unsupported policy name aborts with the filesystem exactly as it was:
no directory created, no config file written. -/
theorem scheduleThenSave_error_leaves_fs_untouched
    (cfg : RunConfig) (steps : Nat) (json : String) (fs : FsState)
    (h : cfg.lr_decay_policy ∉ (["poly", "cosine", "noam"] : List String)) :
    scheduleThenSave cfg steps json fs = Except.error fs := by
  simp only [List.mem_cons, List.not_mem_nil, or_false, not_or] at h
  obtain ⟨h1, h2, h3⟩ := h
  simp [scheduleThenSave, selectLrPolicy, h1, h2, h3]

/-- Witness for C6: with policy "linear" and an initially empty
filesystem, the run tail errors out with that same empty filesystem. -/
theorem scheduleThenSave_error_leaves_fs_untouched_witness :
    scheduleThenSave { defaultConfig with lr_decay_policy := "linear" } 100
      "json" ⟨false, none⟩ = Except.error ⟨false, none⟩ :=
  scheduleThenSave_error_leaves_fs_untouched
    { defaultConfig with lr_decay_policy := "linear" } 100 "json"
    ⟨false, none⟩ (by decide)

/-- C7: the run namer is deterministic, and a supplied explicit name
(tensorboard_filename) always overrides the derived name. -/
theorem runName_deterministic_and_override :
    (∀ c1 c2 : RunConfig, c1 = c2 → runName c1 = runName c2) ∧
    (∀ (cfg : RunConfig) (n : String),
      cfg.tensorboard_filename = some n → runName cfg = n) := by
  refine ⟨fun c1 c2 h => by rw [h], fun cfg n h => ?_⟩
  unfold runName
  rw [h]

/-- Witness for C7: determinism at the default configuration, and the
explicit name "myrun" overriding the derived name. -/
theorem runName_deterministic_and_override_witness :
    runName defaultConfig = runName defaultConfig ∧
    runName { defaultConfig with tensorboard_filename := some "myrun" } =
      "myrun" :=
  ⟨runName_deterministic_and_override.1 defaultConfig defaultConfig rfl,
   runName_deterministic_and_override.2
      { defaultConfig with tensorboard_filename := some "myrun" } "myrun" rfl⟩

/-- C8: when tensorboardX is not importable the writer is None, the
notice is printed and execution continues; when it is importable a
writer named after the run name is opened and nothing is printed. -/
theorem tbSetup_optional_dependency (n : String) :
    tbSetup false n = (none, ["Tensorboard is not available"]) ∧
    tbSetup true n = (some n, []) :=
  ⟨rfl, rfl⟩

/-- C9: after assembly the MLM head's dense projection weight aliases
the encoder's word-embedding weight (same storage), and the train and
eval branches route through the same encoder and MLM head instances. -/
theorem assemblePipeline_tied_weights :
    assemblePipeline.mlm_log_softmax.denseWeight.storage =
      assemblePipeline.bert_model.wordEmbeddingsWeight.storage ∧
    assemblePipeline.trainBranch.encoderOf =
      assemblePipeline.evalBranch.encoderOf ∧
    assemblePipeline.trainBranch.mlmHeadOf =
      assemblePipeline.evalBranch.mlmHeadOf ∧
    assemblePipeline.trainBranch.encoderOf =
      assemblePipeline.bert_model.moduleId ∧
    assemblePipeline.trainBranch.mlmHeadOf =
      assemblePipeline.mlm_log_softmax.moduleId :=
  ⟨rfl, rfl, rfl, rfl, rfl⟩

/-- C10: for every configuration the optimization parameters fix the
first Adam beta at 0.95, pass the configured beta2 through, and never
enable gradient-norm clipping. -/
theorem optimizationParams_fixed_beta1_no_clip (cfg : RunConfig) :
    (optimizationParams cfg).betas = ("0.95", cfg.beta2) ∧
    (optimizationParams cfg).grad_norm_clip = none :=
  ⟨rfl, rfl⟩
